import Mathlib

/-!
Shallow embedding of `_modules/hyperv.py` (salt-hyperv-formula).

The module is a wrapper over an injected salt capability `__salt__`:
`cmd.run` (used for `where powershell`) and `cmd.run_all` (used to run the
actual PowerShell command, returning a dict with a `retcode` and `stdout`).
We model that capability as a `SaltEnv` record, the result of `cmd.run_all`
as a `CmdResult`, Python's `json.loads` as an executable recursive-descent
parser `jsonLoads` producing `JsonValue`, and Python exceptions
(`CommandExecutionError`, `SaltInvocationError`, `json.JSONDecodeError`) as
the `Except PsError` monad.
-/

namespace HyperV

/-- Result of `__salt__['cmd.run_all']`: a numeric status code and captured
output text (stdout and stderr). -/
structure CmdResult where
  retcode : Int
  stdout : String
  stderr : String

/-- The injected salt execution capability: the output text of
`cmd.run(['where', 'powershell'])` and the `cmd.run_all` invocation map from
a command string to its result. -/
structure SaltEnv where
  whereOutput : String
  runAll : String → CmdResult

/-- Python's `str.strip()`: drop whitespace from both ends. -/
def pyStrip (s : String) : String :=
  String.mk (((s.data.dropWhile Char.isWhitespace).reverse.dropWhile Char.isWhitespace).reverse)

/-- Boolean substring test on character lists (Python's `in` on strings). -/
def charsInfixOf (needle : List Char) : List Char → Bool
  | [] => needle.isEmpty
  | c :: t => if needle.isPrefixOf (c :: t) then true else charsInfixOf needle t

/-- `needle in hay` for strings, as in Python. -/
def strContains (hay needle : String) : Bool :=
  charsInfixOf needle.data hay.data

/-- `_has_powershell`: `'powershell' in __salt__['cmd.run'](['where', 'powershell'])`. -/
def _has_powershell (env : SaltEnv) : Bool :=
  strContains env.whereOutput "powershell"

/-- JSON values, the result type of Python's `json.loads`. -/
inductive JsonValue where
  | null : JsonValue
  | bool : Bool → JsonValue
  | num : Int → JsonValue
  | str : String → JsonValue
  | arr : List JsonValue → JsonValue
  | obj : List (String × JsonValue) → JsonValue

/-- Skip JSON whitespace. -/
def skipWs : List Char → List Char
  | [] => []
  | c :: cs => if c = ' ' ∨ c = '\n' ∨ c = '\t' ∨ c = '\r' then skipWs cs else c :: cs

/-- Consume a string body up to the closing quote (no escape handling; the
claims only need parsing of simple literals). -/
def parseStrAux : List Char → Option (List Char × List Char)
  | [] => Option.none
  | c :: cs =>
    if c = '"' then Option.some ([], cs)
    else (parseStrAux cs).map (fun p => (c :: p.1, p.2))

/-- Take a maximal run of decimal digits. -/
def takeDigits : List Char → (List Char × List Char)
  | [] => ([], [])
  | c :: cs =>
    if c.isDigit then
      let p := takeDigits cs
      (c :: p.1, p.2)
    else ([], c :: cs)

/-- Decimal digits to a natural number. -/
def digitsToNat (ds : List Char) : Nat :=
  ds.foldl (fun a c => a * 10 + (c.toNat - '0'.toNat)) 0

/-- Opening brace character (code 123). -/
def lbraceChar : Char := Char.ofNat 123

/-- Closing brace character (code 125). -/
def rbraceChar : Char := Char.ofNat 125

mutual

/-- Fuel-indexed JSON value parser. -/
def parseVal : Nat → List Char → Option (JsonValue × List Char)
  | 0, _ => Option.none
  | Nat.succ fuel, input =>
    match skipWs input with
    | [] => Option.none
    | c :: cs =>
      if c = 'n' then
        match cs with
        | 'u' :: 'l' :: 'l' :: rest => Option.some (JsonValue.null, rest)
        | _ => Option.none
      else if c = 't' then
        match cs with
        | 'r' :: 'u' :: 'e' :: rest => Option.some (JsonValue.bool true, rest)
        | _ => Option.none
      else if c = 'f' then
        match cs with
        | 'a' :: 'l' :: 's' :: 'e' :: rest => Option.some (JsonValue.bool false, rest)
        | _ => Option.none
      else if c = '"' then
        (parseStrAux cs).map (fun p => (JsonValue.str (String.mk p.1), p.2))
      else if c = '-' then
        match takeDigits cs with
        | ([], _) => Option.none
        | (ds, rest) => Option.some (JsonValue.num (-(digitsToNat ds : Int)), rest)
      else if c.isDigit then
        match takeDigits (c :: cs) with
        | (ds, rest) => Option.some (JsonValue.num (digitsToNat ds : Int), rest)
      else if c = '[' then
        match skipWs cs with
        | d :: rest =>
          if d = ']' then Option.some (JsonValue.arr [], rest)
          else
            match parseArrItems fuel (d :: rest) with
            | Option.some (xs, rest2) => Option.some (JsonValue.arr xs, rest2)
            | Option.none => Option.none
        | [] => Option.none
      else if c = lbraceChar then
        match skipWs cs with
        | d :: rest =>
          if d = rbraceChar then Option.some (JsonValue.obj [], rest)
          else
            match parseObjItems fuel (d :: rest) with
            | Option.some (fs, rest2) => Option.some (JsonValue.obj fs, rest2)
            | Option.none => Option.none
        | [] => Option.none
      else Option.none

/-- Fuel-indexed parser for the items of a non-empty JSON array. -/
def parseArrItems : Nat → List Char → Option (List JsonValue × List Char)
  | 0, _ => Option.none
  | Nat.succ fuel, input =>
    match parseVal fuel input with
    | Option.none => Option.none
    | Option.some (v, rest) =>
      match skipWs rest with
      | c :: rest2 =>
        if c = ',' then
          match parseArrItems fuel rest2 with
          | Option.some (vs, rest3) => Option.some (v :: vs, rest3)
          | Option.none => Option.none
        else if c = ']' then Option.some ([v], rest2)
        else Option.none
      | [] => Option.none

/-- Fuel-indexed parser for the fields of a non-empty JSON object. -/
def parseObjItems : Nat → List Char → Option (List (String × JsonValue) × List Char)
  | 0, _ => Option.none
  | Nat.succ fuel, input =>
    match skipWs input with
    | c :: cs =>
      if c = '"' then
        match parseStrAux cs with
        | Option.none => Option.none
        | Option.some (key, rest) =>
          match skipWs rest with
          | d :: rest2 =>
            if d = ':' then
              match parseVal fuel rest2 with
              | Option.none => Option.none
              | Option.some (v, rest3) =>
                match skipWs rest3 with
                | e :: rest4 =>
                  if e = ',' then
                    match parseObjItems fuel rest4 with
                    | Option.some (fs, rest5) =>
                        Option.some ((String.mk key, v) :: fs, rest5)
                    | Option.none => Option.none
                  else if e = rbraceChar then
                    Option.some ([(String.mk key, v)], rest4)
                  else Option.none
                | [] => Option.none
            else Option.none
          | [] => Option.none
      else Option.none
    | [] => Option.none

end

/-- Python exceptions raised (directly or indirectly) by the module. -/
inductive PsError where
  | commandExecutionError : String → PsError
  | saltInvocationError : String → PsError
  | jsonDecodeError : PsError

/-- Model of `json.loads`: parse a complete JSON document, or raise
`json.JSONDecodeError`. -/
def jsonLoads (s : String) : Except PsError JsonValue :=
  match parseVal (s.length + 1) s.data with
  | Option.some (v, rest) =>
    if skipWs rest = [] then Except.ok v else Except.error PsError.jsonDecodeError
  | Option.none => Except.error PsError.jsonDecodeError

/-- The Python value `_psrun` returns: `None` (PowerShell unavailable), the
raw stdout string (`json_output=False`), or the normalized list of decoded
JSON values (`json_output=True`). -/
inductive PsResult where
  | pynone : PsResult
  | text : String → PsResult
  | records : List JsonValue → PsResult

/-- Model of Python's `str(ret)` on the `cmd.run_all` result dict: a text
rendering that embeds the status code and the captured output/error text. -/
def CmdResult.toRepr (r : CmdResult) : String :=
  "\x7bretcode: " ++ toString r.retcode ++ ", stdout: " ++ r.stdout ++
    ", stderr: " ++ r.stderr ++ "\x7d"

/-- The command actually handed to `cmd.run_all`: with `json_output`, the
serialization stage is appended. -/
def psCmd (cmd : String) (json_output : Bool) : String :=
  if json_output then cmd ++ " | ConvertTo-Json -Depth 1 -Compress" else cmd

/-- `_psrun(cmd, json_output)`: run a powershell command. Mirrors the source:
if `_has_powershell()` fails the function body ends without a `return`
statement, so Python returns `None`. -/
def _psrun (env : SaltEnv) (cmd : String) (json_output : Bool) : Except PsError PsResult :=
  if _has_powershell env then
    let ret := env.runAll (psCmd cmd json_output)
    if ret.retcode = 0 then
      if json_output then
        let out := if (pyStrip ret.stdout).length = 0 then "[]" else ret.stdout
        match jsonLoads out with
        | Except.error e => Except.error e
        | Except.ok (JsonValue.arr xs) => Except.ok (PsResult.records xs)
        | Except.ok v => Except.ok (PsResult.records [v])
      else
        Except.ok (PsResult.text ret.stdout)
    else
      Except.error (PsError.commandExecutionError (CmdResult.toRepr ret))
  else
    Except.ok PsResult.pynone

/-- `_SWITCH_TYPES = \x7b0: 'external', 1: 'internal', 2: 'private'\x7d`. -/
def _SWITCH_TYPES : List (Nat × String) :=
  [(0, "external"), (1, "internal"), (2, "private")]

/-- `_SWITCH_TYPES[k]` (all keys used by the source are present, so the
default is never taken). -/
def switchTypeAt (k : Nat) : String :=
  (_SWITCH_TYPES.lookup k).getD ""

/-- `_SWITCH_TYPES.values()`, in insertion order. -/
def switchTypeValues : List String :=
  _SWITCH_TYPES.map Prod.snd

/-- `add_vswitch(name, switchtype, **kwargs)`; the only keyword argument the
source reads is `interface`. Validation failures raise
`SaltInvocationError`; the `try/except` around `_psrun` swallows every
exception into `False`. -/
def add_vswitch (env : SaltEnv) (name switchtype : Option String)
    (interface : Option String) : Except PsError Bool :=
  let cmd := "New-VMSwitch"
  match name with
  | Option.none => Except.error (PsError.saltInvocationError "vswitch name not specified")
  | Option.some n =>
    if (pyStrip n).length > 0 then
      let cmd1 := cmd ++ " -Name " ++ n
      match switchtype with
      | Option.none => Except.error (PsError.saltInvocationError "vswitch type not specified")
      | Option.some t =>
        if (pyStrip t).length > 0 then
          if t ∈ switchTypeValues then
            let build : Except PsError String :=
              if t = switchTypeAt 0 then
                match interface with
                | Option.none =>
                    Except.error (PsError.saltInvocationError
                      "no interface name specified for external vswitch")
                | Option.some i => Except.ok (cmd1 ++ " -NetAdapterName " ++ i)
              else if t = switchTypeAt 1 ∨ t = switchTypeAt 2 then
                Except.ok (cmd1 ++ " -SwitchType " ++ t)
              else
                Except.ok cmd1
            match build with
            | Except.error e => Except.error e
            | Except.ok cmd2 =>
              match _psrun env cmd2 true with
              | Except.error _ => Except.ok false
              | Except.ok _ => Except.ok true
          else
            Except.error (PsError.saltInvocationError ("switchtype " ++ t ++ " not supported"))
        else
          Except.error (PsError.saltInvocationError "vswitch type not specified")
    else
      Except.error (PsError.saltInvocationError "vswitch name not specified")

/-- `remove_vswitch(name, **kwargs)`. -/
def remove_vswitch (env : SaltEnv) (name : Option String) : Except PsError Bool :=
  let cmd := "Remove-VMSwitch -Force"
  match name with
  | Option.none => Except.error (PsError.saltInvocationError "vswitch name not specified")
  | Option.some n =>
    if (pyStrip n).length > 0 then
      let cmd1 := cmd ++ " -Name " ++ n
      match _psrun env cmd1 true with
      | Except.error _ => Except.ok false
      | Except.ok _ => Except.ok true
    else
      Except.error (PsError.saltInvocationError "vswitch name not specified")

/-- The Python value returned by `set_netadapter`: either the `_psrun`
result, or the literal `False` when neither a rename nor a VLAN change was
requested. -/
inductive SetNaResult where
  | psResult : PsResult → SetNaResult
  | boolFalse : SetNaResult

/-- `filter_properties = \x7b'mac': 'MacAddress', 'name': 'Name'\x7d`. -/
def filter_properties : List (String × String) :=
  [("mac", "MacAddress"), ("name", "Name")]

/-- `set_netadapter(tgt, tgt_type='mac', **kwargs)`; the keyword arguments
the source reads are `name` and `vlan`. -/
def set_netadapter (env : SaltEnv) (tgt : String) (tgt_type : String)
    (name vlan : Option String) : Except PsError SetNaResult :=
  match filter_properties.lookup tgt_type with
  | Option.none =>
      Except.error (PsError.saltInvocationError ("tgt_type " ++ tgt_type ++ " is not allowed"))
  | Option.some prop =>
    let get_cmd := "Get-NetAdapter -Physical | Where \x7b$_." ++ prop ++
      " -eq \"" ++ tgt ++ "\"\x7d"
    let rename_cmd := Option.map (fun n => "Rename-NetAdapter -NewName " ++ n ++ " -PassThru") name
    let set_cmd := Option.map (fun v => "Set-NetAdapter -VlanID " ++ v ++ " -PassThru") vlan
    match rename_cmd, set_cmd with
    | Option.some r, Option.some s =>
        Except.map SetNaResult.psResult (_psrun env (get_cmd ++ " | " ++ r ++ " | " ++ s) true)
    | Option.some r, Option.none =>
        Except.map SetNaResult.psResult (_psrun env (get_cmd ++ " | " ++ r) true)
    | Option.none, Option.some s =>
        Except.map SetNaResult.psResult (_psrun env (get_cmd ++ " | " ++ s) true)
    | Option.none, Option.none => Except.ok SetNaResult.boolFalse

/-- Whether an operation outcome is a raised error (as seen by a caller). -/
def isFailure {α : Type} : Except PsError α → Bool
  | Except.error _ => true
  | Except.ok _ => false

/-- Whether an operation outcome is specifically a raised `SaltInvocationError`. -/
def isInvocationError {α : Type} : Except PsError α → Bool
  | Except.error (PsError.saltInvocationError _) => true
  | _ => false

/-- A Python argument that is `None` or whitespace-only. -/
def blankOpt : Option String → Bool
  | Option.none => true
  | Option.some s => (pyStrip s).length == 0

/-- The spec's condition for `add_vswitch` to reject its arguments: name
missing or blank, type missing or blank, type outside the switch-type
enumeration, or type external with no interface supplied. -/
def addVswitchInvalidProp (name switchtype iface : Option String) : Prop :=
  blankOpt name = true ∨ blankOpt switchtype = true ∨
    (∃ t, switchtype = Option.some t ∧
      (t ∉ switchTypeValues ∨ (t = "external" ∧ iface = Option.none)))

/-- The boolean `add_vswitch`/`remove_vswitch` compute from a `_psrun`
outcome: `False` exactly when an exception was caught. -/
def tryBool (r : Except PsError PsResult) : Bool :=
  match r with
  | Except.error _ => false
  | Except.ok _ => true

/-- A host (as seen through `where powershell`) without a resolvable
PowerShell interpreter. -/
def envNoPs : SaltEnv :=
  ⟨"INFO: Could not find files for the given pattern(s).", fun _ => ⟨0, "", ""⟩⟩

/-- A host with PowerShell whose command invocations fail with status 1. -/
def envFail : SaltEnv :=
  ⟨"C:\\Windows\\System32\\WindowsPowerShell\\v1.0\\powershell.exe",
    fun _ => ⟨1, "boom", "errtext"⟩⟩

/-- A host with PowerShell whose command invocations succeed with
whitespace-only output. -/
def envEmpty : SaltEnv :=
  ⟨"C:\\Windows\\System32\\WindowsPowerShell\\v1.0\\powershell.exe",
    fun _ => ⟨0, "   ", ""⟩⟩

/-- A host with PowerShell whose command invocations succeed with a JSON
array of two values as output. -/
def envArr : SaltEnv :=
  ⟨"C:\\Windows\\System32\\WindowsPowerShell\\v1.0\\powershell.exe",
    fun _ => ⟨0, "[1,2]", ""⟩⟩

/-- A host with PowerShell whose command invocations succeed with a single
bare JSON object as output. -/
def envScalar : SaltEnv :=
  ⟨"C:\\Windows\\System32\\WindowsPowerShell\\v1.0\\powershell.exe",
    fun _ => ⟨0, "\x7b\"Name\": \"vm1\"\x7d", ""⟩⟩

/-! ## Helper lemmas -/

theorem strData_append (s t : String) : (s ++ t).data = s.data ++ t.data := rfl

theorem isPrefixOf_append_self (l t : List Char) : l.isPrefixOf (l ++ t) = true := by
  induction l with
  | nil => cases t <;> rfl
  | cons c m ih => simp [List.isPrefixOf, ih]

theorem charsInfixOf_cons (needle : List Char) (c : Char) (t : List Char) :
    charsInfixOf needle (c :: t) =
      if needle.isPrefixOf (c :: t) then true else charsInfixOf needle t := rfl

theorem charsInfixOf_nil_needle (l : List Char) : charsInfixOf [] l = true := by
  cases l with
  | nil => rfl
  | cons c t => simp [charsInfixOf_cons, List.isPrefixOf]

theorem charsInfixOf_self_append (n t : List Char) : charsInfixOf n (n ++ t) = true := by
  cases n with
  | nil => exact charsInfixOf_nil_needle t
  | cons c m =>
    have hp : (c :: m).isPrefixOf (c :: (m ++ t)) = true := isPrefixOf_append_self (c :: m) t
    show charsInfixOf (c :: m) (c :: (m ++ t)) = true
    rw [charsInfixOf_cons, if_pos hp]

theorem charsInfixOf_append_left (a n h : List Char) (H : charsInfixOf n h = true) :
    charsInfixOf n (a ++ h) = true := by
  induction a with
  | nil => simpa using H
  | cons c t ih =>
    show charsInfixOf n (c :: (t ++ h)) = true
    rw [charsInfixOf_cons]
    by_cases hp : n.isPrefixOf (c :: (t ++ h)) = true
    · rw [if_pos hp]
    · rw [if_neg hp]
      exact ih

theorem charsInfixOf_mid (a b c : List Char) : charsInfixOf b (a ++ (b ++ c)) = true :=
  charsInfixOf_append_left a b (b ++ c) (charsInfixOf_self_append b c)

theorem toRepr_contains (r : CmdResult) :
    strContains (CmdResult.toRepr r) (toString r.retcode) = true ∧
    strContains (CmdResult.toRepr r) r.stdout = true := by
  constructor
  · show charsInfixOf (toString r.retcode).data (CmdResult.toRepr r).data = true
    simp only [CmdResult.toRepr, strData_append, List.append_assoc]
    exact charsInfixOf_mid _ _ _
  · show charsInfixOf r.stdout.data (CmdResult.toRepr r).data = true
    simp only [CmdResult.toRepr, strData_append, List.append_assoc]
    exact charsInfixOf_append_left _ _ _
      (charsInfixOf_append_left _ _ _
        (charsInfixOf_append_left _ _ _ (charsInfixOf_self_append _ _)))

theorem psrun_pynone_of_no_powershell (env : SaltEnv) (cmd : String) (j : Bool)
    (h : _has_powershell env = false) :
    _psrun env cmd j = Except.ok PsResult.pynone := by
  unfold _psrun
  rw [if_neg]
  simp [h]

theorem match_psrun_tryBool (env : SaltEnv) (c : String) :
    (match _psrun env c true with
      | Except.error _ => Except.ok false
      | Except.ok _ => Except.ok true) =
      (Except.ok (tryBool (_psrun env c true)) : Except PsError Bool) := by
  cases _psrun env c true <;> rfl

theorem isInvocationError_match_tryBool (env : SaltEnv) (c : String) :
    isInvocationError
      (match _psrun env c true with
        | Except.error _ => Except.ok false
        | Except.ok _ => (Except.ok true : Except PsError Bool)) = false := by
  cases _psrun env c true <;> rfl

theorem add_vswitch_run_external (env : SaltEnv) (n i : String)
    (hn : 0 < (pyStrip n).length) :
    add_vswitch env (Option.some n) (Option.some "external") (Option.some i) =
      (match _psrun env ("New-VMSwitch -Name " ++ n ++ " -NetAdapterName " ++ i) true with
        | Except.error _ => Except.ok false
        | Except.ok _ => Except.ok true) := by
  simp only [add_vswitch]
  rw [if_pos hn]
  rfl

theorem add_vswitch_run_sw (env : SaltEnv) (n t : String) (iface : Option String)
    (hn : 0 < (pyStrip n).length) (ht : t = "internal" ∨ t = "private") :
    add_vswitch env (Option.some n) (Option.some t) iface =
      (match _psrun env ("New-VMSwitch -Name " ++ n ++ " -SwitchType " ++ t) true with
        | Except.error _ => Except.ok false
        | Except.ok _ => Except.ok true) := by
  rcases ht with rfl | rfl <;>
    (simp only [add_vswitch]; rw [if_pos hn]; rfl)

theorem remove_vswitch_run (env : SaltEnv) (n : String)
    (hn : 0 < (pyStrip n).length) :
    remove_vswitch env (Option.some n) =
      (match _psrun env ("Remove-VMSwitch -Force -Name " ++ n) true with
        | Except.error _ => Except.ok false
        | Except.ok _ => Except.ok true) := by
  simp only [remove_vswitch]
  rw [if_pos hn]
  rfl

theorem addVswitchInvalidProp_false (n t : String) (iface : Option String)
    (hn : 0 < (pyStrip n).length) (ht : 0 < (pyStrip t).length)
    (hm : t ∈ switchTypeValues)
    (hext : t = "external" → ∃ i, iface = Option.some i) :
    ¬ addVswitchInvalidProp (Option.some n) (Option.some t) iface := by
  rintro (h | h | ⟨t', ht', h'⟩)
  · simp [blankOpt] at h
    omega
  · simp [blankOpt] at h
    omega
  · injection ht' with h''
    subst h''
    rcases h' with h' | ⟨hx, hif⟩
    · exact h' hm
    · obtain ⟨i, rfl⟩ := hext hx
      exact Option.noConfusion hif

/-! ## Claim theorems -/

/-- C1, counterexample: on a host without a resolvable PowerShell
interpreter, `_psrun` does not deliver a failure to the caller — it returns
the Python value `None` and raises nothing — so the claim's "the caller
receives a failure" is false at this concrete input. -/
theorem c1_counterexample :
    _has_powershell envNoPs = false ∧
    _psrun envNoPs "Get-VM" true = Except.ok PsResult.pynone ∧
    isFailure (_psrun envNoPs "Get-VM" true) = false :=
  ⟨rfl, rfl, rfl⟩

/-- C1 (amended): for every command and both output modes, if the
PowerShell interpreter is not resolvable, `_psrun` does not attempt command
execution and returns `None` without raising any error; the caller receives
no failure. -/
theorem c1_psrun_unavailable_returns_none (env : SaltEnv) (cmd : String) (j : Bool)
    (h : _has_powershell env = false) :
    _psrun env cmd j = Except.ok PsResult.pynone ∧
    isFailure (_psrun env cmd j) = false := by
  have he := psrun_pynone_of_no_powershell env cmd j h
  exact ⟨he, by rw [he]; rfl⟩

theorem c1_psrun_unavailable_returns_none_witness :
    _has_powershell envNoPs = false ∧
    (_psrun envNoPs "Get-VM" true = Except.ok PsResult.pynone ∧
      isFailure (_psrun envNoPs "Get-VM" true) = false) :=
  ⟨rfl, c1_psrun_unavailable_returns_none envNoPs "Get-VM" true rfl⟩

/-- C2: for every command and both `json_output` modes, a non-zero status
code from the interpreter makes `_psrun` raise a `CommandExecutionError`
whose message contains both the status code and the captured output text. -/
theorem c2_psrun_nonzero_raises (env : SaltEnv) (cmd : String) (j : Bool)
    (hps : _has_powershell env = true)
    (hr : (env.runAll (psCmd cmd j)).retcode ≠ 0) :
    ∃ msg,
      _psrun env cmd j = Except.error (PsError.commandExecutionError msg) ∧
      strContains msg (toString (env.runAll (psCmd cmd j)).retcode) = true ∧
      strContains msg (env.runAll (psCmd cmd j)).stdout = true := by
  refine ⟨CmdResult.toRepr (env.runAll (psCmd cmd j)), ?_,
    (toRepr_contains _).1, (toRepr_contains _).2⟩
  unfold _psrun
  rw [if_pos hps]
  simp only []
  rw [if_neg hr]

theorem c2_psrun_nonzero_raises_witness :
    _has_powershell envFail = true ∧
    (envFail.runAll (psCmd "Get-VM" true)).retcode ≠ 0 ∧
    (∃ msg,
      _psrun envFail "Get-VM" true = Except.error (PsError.commandExecutionError msg) ∧
      strContains msg (toString (envFail.runAll (psCmd "Get-VM" true)).retcode) = true ∧
      strContains msg (envFail.runAll (psCmd "Get-VM" true)).stdout = true) :=
  ⟨rfl, by decide, c2_psrun_nonzero_raises envFail "Get-VM" true rfl (by decide)⟩

/-- C3: with `json_output` true, a successful invocation (status 0) whose
output text is empty after trimming whitespace makes `_psrun` return the
empty record sequence rather than failing to parse. -/
theorem c3_psrun_empty_output (env : SaltEnv) (cmd : String)
    (hps : _has_powershell env = true)
    (h0 : (env.runAll (psCmd cmd true)).retcode = 0)
    (he : (pyStrip (env.runAll (psCmd cmd true)).stdout).length = 0) :
    _psrun env cmd true = Except.ok (PsResult.records []) := by
  unfold _psrun
  rw [if_pos hps]
  simp only []
  rw [if_pos h0, if_true, if_pos he]
  rfl

/-- C4: with `json_output` true on a successful invocation with non-empty
(trimmed) output, if the decoded JSON value is a sequence it is returned
as-is (N elements, order preserved), and if it is not a sequence it is
wrapped in a one-element sequence containing exactly that value. -/
theorem c4_psrun_json_normalization (env : SaltEnv) (cmd : String)
    (hps : _has_powershell env = true)
    (h0 : (env.runAll (psCmd cmd true)).retcode = 0)
    (hne : (pyStrip (env.runAll (psCmd cmd true)).stdout).length ≠ 0) :
    (∀ xs, jsonLoads (env.runAll (psCmd cmd true)).stdout = Except.ok (JsonValue.arr xs) →
      _psrun env cmd true = Except.ok (PsResult.records xs)) ∧
    (∀ v, jsonLoads (env.runAll (psCmd cmd true)).stdout = Except.ok v →
      (∀ xs, v ≠ JsonValue.arr xs) →
      _psrun env cmd true = Except.ok (PsResult.records [v])) := by
  have hbase : _psrun env cmd true =
      (match jsonLoads (env.runAll (psCmd cmd true)).stdout with
        | Except.error e => Except.error e
        | Except.ok (JsonValue.arr xs) => Except.ok (PsResult.records xs)
        | Except.ok v => Except.ok (PsResult.records [v])) := by
    unfold _psrun
    rw [if_pos hps]
    simp only []
    rw [if_pos h0, if_true, if_neg hne]
  constructor
  · intro xs hj
    rw [hbase, hj]
  · intro v hj hv
    rw [hbase, hj]
    cases v with
    | arr xs => exact absurd rfl (hv xs)
    | null => rfl
    | bool b => rfl
    | num n => rfl
    | str s => rfl
    | obj fs => rfl

theorem c4_psrun_json_normalization_witness :
    _has_powershell envArr = true ∧
    (envArr.runAll (psCmd "Get-VM" true)).retcode = 0 ∧
    (pyStrip (envArr.runAll (psCmd "Get-VM" true)).stdout).length ≠ 0 ∧
    jsonLoads (envArr.runAll (psCmd "Get-VM" true)).stdout =
      Except.ok (JsonValue.arr [JsonValue.num 1, JsonValue.num 2]) ∧
    _psrun envArr "Get-VM" true =
      Except.ok (PsResult.records [JsonValue.num 1, JsonValue.num 2]) ∧
    _psrun envScalar "Get-VM" true =
      Except.ok (PsResult.records [JsonValue.obj [("Name", JsonValue.str "vm1")]]) :=
  ⟨rfl, rfl, by decide, rfl,
    (c4_psrun_json_normalization envArr "Get-VM" rfl rfl (by decide)).1
      [JsonValue.num 1, JsonValue.num 2] rfl,
    (c4_psrun_json_normalization envScalar "Get-VM" rfl rfl (by decide)).2
      (JsonValue.obj [("Name", JsonValue.str "vm1")]) rfl (fun xs h => nomatch h)⟩

/-- C5: for every `add_vswitch` or `remove_vswitch` call that passes
argument validation, the outcome is `Except.ok` of the caught-and-degraded
boolean: `False` exactly when the command runner raised, `True` otherwise;
the underlying diagnostic is discarded. -/
theorem c5_vswitch_degrade (env : SaltEnv) (n t : String) (iface : Option String)
    (hn : 0 < (pyStrip n).length)
    (ht : t ∈ switchTypeValues)
    (hi : t = "external" → iface.isSome = true) :
    (∃ c, add_vswitch env (Option.some n) (Option.some t) iface =
      Except.ok (tryBool (_psrun env c true))) ∧
    (∃ c, remove_vswitch env (Option.some n) =
      Except.ok (tryBool (_psrun env c true))) := by
  constructor
  · have ht3 : t = "external" ∨ t = "internal" ∨ t = "private" := by
      simpa [switchTypeValues, _SWITCH_TYPES] using ht
    rcases ht3 with rfl | rfl | rfl
    · obtain ⟨i, hi'⟩ := Option.isSome_iff_exists.mp (hi rfl)
      subst hi'
      exact ⟨"New-VMSwitch -Name " ++ n ++ " -NetAdapterName " ++ i, by
        rw [add_vswitch_run_external env n i hn]
        exact match_psrun_tryBool env _⟩
    · exact ⟨"New-VMSwitch -Name " ++ n ++ " -SwitchType " ++ "internal", by
        rw [add_vswitch_run_sw env n "internal" iface hn (Or.inl rfl)]
        exact match_psrun_tryBool env _⟩
    · exact ⟨"New-VMSwitch -Name " ++ n ++ " -SwitchType " ++ "private", by
        rw [add_vswitch_run_sw env n "private" iface hn (Or.inr rfl)]
        exact match_psrun_tryBool env _⟩
  · exact ⟨"Remove-VMSwitch -Force -Name " ++ n, by
      rw [remove_vswitch_run env n hn]
      exact match_psrun_tryBool env _⟩

theorem c5_vswitch_degrade_witness :
    0 < (pyStrip "sw").length ∧
    "internal" ∈ switchTypeValues ∧
    ("internal" = "external" → (Option.none : Option String).isSome = true) ∧
    ((∃ c, add_vswitch envFail (Option.some "sw") (Option.some "internal") Option.none =
        Except.ok (tryBool (_psrun envFail c true))) ∧
      (∃ c, remove_vswitch envFail (Option.some "sw") =
        Except.ok (tryBool (_psrun envFail c true)))) :=
  ⟨by decide, by decide, by decide,
    c5_vswitch_degrade envFail "sw" "internal" Option.none (by decide) (by decide) (by decide)⟩

/-- C6: an `add_vswitch` call with a non-blank name, type `"external"` and no
interface argument fails with `SaltInvocationError` before any execution
attempt is made (the outcome does not depend on the execution capability at
all: it is the same error for every environment). -/
theorem c6_add_vswitch_external_needs_interface (env : SaltEnv) (n : String)
    (hn : 0 < (pyStrip n).length) :
    add_vswitch env (Option.some n) (Option.some "external") Option.none =
      Except.error (PsError.saltInvocationError
        "no interface name specified for external vswitch") := by
  simp only [add_vswitch]
  rw [if_pos hn]
  rfl

theorem c6_add_vswitch_external_needs_interface_witness :
    0 < (pyStrip "sw").length ∧
    add_vswitch envArr (Option.some "sw") (Option.some "external") Option.none =
      Except.error (PsError.saltInvocationError
        "no interface name specified for external vswitch") :=
  ⟨by decide, c6_add_vswitch_external_needs_interface envArr "sw" (by decide)⟩

/-- C7: `add_vswitch` raises `SaltInvocationError` exactly when the name is
missing or blank, the type is missing or blank, the type is outside
\x7bexternal, internal, private\x7d, or the type is external with no interface
supplied; in particular, for the three valid types with complete arguments no
invalid-argument error is raised. -/
theorem c7_add_vswitch_invalid_iff (env : SaltEnv) (name switchtype iface : Option String) :
    isInvocationError (add_vswitch env name switchtype iface) = true ↔
      addVswitchInvalidProp name switchtype iface := by
  cases name with
  | none =>
    exact iff_of_true rfl (Or.inl rfl)
  | some n =>
    by_cases hn : 0 < (pyStrip n).length
    · cases switchtype with
      | none =>
        refine iff_of_true ?_ (Or.inr (Or.inl rfl))
        simp only [add_vswitch]
        rw [if_pos hn]
        rfl
      | some t =>
        by_cases ht : 0 < (pyStrip t).length
        · by_cases hm : t ∈ switchTypeValues
          · have ht3 : t = "external" ∨ t = "internal" ∨ t = "private" := by
              simpa [switchTypeValues, _SWITCH_TYPES] using hm
            rcases ht3 with rfl | rfl | rfl
            · cases iface with
              | none =>
                refine iff_of_true ?_
                  (Or.inr (Or.inr ⟨"external", rfl, Or.inr ⟨rfl, rfl⟩⟩))
                simp only [add_vswitch]
                rw [if_pos hn]
                rfl
              | some i =>
                refine iff_of_false ?_
                  (addVswitchInvalidProp_false n "external" (Option.some i) hn ht hm
                    (fun _ => ⟨i, rfl⟩))
                rw [add_vswitch_run_external env n i hn, isInvocationError_match_tryBool]
                simp
            · refine iff_of_false ?_
                (addVswitchInvalidProp_false n "internal" iface hn ht hm
                  (fun h => absurd h (by decide)))
              rw [add_vswitch_run_sw env n "internal" iface hn (Or.inl rfl),
                isInvocationError_match_tryBool]
              simp
            · refine iff_of_false ?_
                (addVswitchInvalidProp_false n "private" iface hn ht hm
                  (fun h => absurd h (by decide)))
              rw [add_vswitch_run_sw env n "private" iface hn (Or.inr rfl),
                isInvocationError_match_tryBool]
              simp
          · refine iff_of_true ?_ (Or.inr (Or.inr ⟨t, rfl, Or.inl hm⟩))
            simp only [add_vswitch]
            rw [if_pos hn, if_pos ht, if_neg hm]
            rfl
        · have h0 : (pyStrip t).length = 0 := by omega
          refine iff_of_true ?_ (Or.inr (Or.inl (by simp [blankOpt, h0])))
          simp only [add_vswitch]
          rw [if_pos hn, if_neg ht]
          rfl
    · have h0 : (pyStrip n).length = 0 := by omega
      refine iff_of_true ?_ (Or.inl (by simp [blankOpt, h0]))
      simp only [add_vswitch]
      rw [if_neg hn]
      rfl

theorem c3_psrun_empty_output_witness :
    _has_powershell envEmpty = true ∧
    (envEmpty.runAll (psCmd "Get-VMSwitch" true)).retcode = 0 ∧
    (pyStrip (envEmpty.runAll (psCmd "Get-VMSwitch" true)).stdout).length = 0 ∧
    _psrun envEmpty "Get-VMSwitch" true = Except.ok (PsResult.records []) :=
  ⟨rfl, rfl, rfl, c3_psrun_empty_output envEmpty "Get-VMSwitch" rfl rfl rfl⟩

/-- C8: a `set_netadapter` call with a supported target-selector kind that
requests neither a rename nor a VLAN change returns the Python literal
`False` without any error and without consulting the execution capability
(the result is the same for every environment). -/
theorem c8_set_netadapter_no_change (env : SaltEnv) (tgt tgt_type : String)
    (h : tgt_type = "mac" ∨ tgt_type = "name") :
    set_netadapter env tgt tgt_type Option.none Option.none =
      Except.ok SetNaResult.boolFalse := by
  rcases h with rfl | rfl <;> rfl

theorem c8_set_netadapter_no_change_witness :
    ("mac" = "mac" ∨ "mac" = "name") ∧
    set_netadapter envArr "00-11-22-33-44-55" "mac" Option.none Option.none =
      Except.ok SetNaResult.boolFalse :=
  ⟨Or.inl rfl, c8_set_netadapter_no_change envArr "00-11-22-33-44-55" "mac" (Or.inl rfl)⟩

/-- C9: a `set_netadapter` call whose target-selector kind is neither
`"mac"` nor `"name"` raises `SaltInvocationError` regardless of the other
arguments, before the interpreter is invoked (the result is the same for
every environment). -/
theorem c9_set_netadapter_bad_selector (env : SaltEnv) (tgt tgt_type : String)
    (name vlan : Option String)
    (h1 : tgt_type ≠ "mac") (h2 : tgt_type ≠ "name") :
    set_netadapter env tgt tgt_type name vlan =
      Except.error (PsError.saltInvocationError
        ("tgt_type " ++ tgt_type ++ " is not allowed")) := by
  have hb1 : (tgt_type == "mac") = false := beq_eq_false_iff_ne.mpr h1
  have hb2 : (tgt_type == "name") = false := beq_eq_false_iff_ne.mpr h2
  have hl : filter_properties.lookup tgt_type = Option.none := by
    simp [filter_properties, List.lookup, hb1, hb2]
  simp only [set_netadapter]
  rw [hl]

theorem c9_set_netadapter_bad_selector_witness :
    ("bogus" : String) ≠ "mac" ∧ ("bogus" : String) ≠ "name" ∧
    set_netadapter envArr "00-11-22-33-44-55" "bogus" (Option.some "vnic0") Option.none =
      Except.error (PsError.saltInvocationError "tgt_type bogus is not allowed") :=
  ⟨by decide, by decide,
    c9_set_netadapter_bad_selector envArr "00-11-22-33-44-55" "bogus"
      (Option.some "vnic0") Option.none (by decide) (by decide)⟩

/-- C10: when the PowerShell availability check fails, `_psrun` returns
`None` without raising; consequently `add_vswitch` and `remove_vswitch`,
called with valid arguments on such a host, return `True` even though no
command was executed. -/
theorem c10_no_powershell_silent_success (env : SaltEnv)
    (h : _has_powershell env = false) :
    (∀ cmd j, _psrun env cmd j = Except.ok PsResult.pynone) ∧
    (∀ n t iface, 0 < (pyStrip n).length → t ∈ switchTypeValues →
      (t = "external" → Option.isSome iface = true) →
      add_vswitch env (Option.some n) (Option.some t) iface = Except.ok true) ∧
    (∀ n, 0 < (pyStrip n).length →
      remove_vswitch env (Option.some n) = Except.ok true) := by
  have hp : ∀ cmd j, _psrun env cmd j = Except.ok PsResult.pynone :=
    fun cmd j => psrun_pynone_of_no_powershell env cmd j h
  refine ⟨hp, ?_, ?_⟩
  · intro n t iface hn ht hi
    have ht3 : t = "external" ∨ t = "internal" ∨ t = "private" := by
      simpa [switchTypeValues, _SWITCH_TYPES] using ht
    rcases ht3 with rfl | rfl | rfl
    · obtain ⟨i, hi'⟩ := Option.isSome_iff_exists.mp (hi rfl)
      subst hi'
      rw [add_vswitch_run_external env n i hn, hp]
    · rw [add_vswitch_run_sw env n "internal" iface hn (Or.inl rfl), hp]
    · rw [add_vswitch_run_sw env n "private" iface hn (Or.inr rfl), hp]
  · intro n hn
    rw [remove_vswitch_run env n hn, hp]

theorem c10_no_powershell_silent_success_witness :
    _has_powershell envNoPs = false ∧
    0 < (pyStrip "sw").length ∧
    "internal" ∈ switchTypeValues ∧
    _psrun envNoPs "Get-VM" true = Except.ok PsResult.pynone ∧
    add_vswitch envNoPs (Option.some "sw") (Option.some "internal") Option.none =
      Except.ok true ∧
    remove_vswitch envNoPs (Option.some "sw") = Except.ok true :=
  ⟨rfl, by decide, by decide,
    (c10_no_powershell_silent_success envNoPs rfl).1 "Get-VM" true,
    (c10_no_powershell_silent_success envNoPs rfl).2.1 "sw" "internal" Option.none
      (by decide) (by decide) (by decide),
    (c10_no_powershell_silent_success envNoPs rfl).2.2 "sw" (by decide)⟩

end HyperV
